import Mathlib

/-!
Verification of the scenario generator and scoring engine of the
Measuring-Faithfulness-and-Abstention repository.

The Python sources (src/scenario_generator.py, src/score_calculation.py,
src/pipeline.py) are shallowly embedded below.  Randomness is modelled by
explicit parameters: every call to the process-wide RNG is replaced by a
`Nat` draw (for `random.randint` / `random.random`) or by a stream
`Nat → Nat` feeding a without-replacement selection (for `random.sample`,
and for the rejection loops that repeatedly draw a random index / factor
and skip duplicates, which compute the same family of results).
-/

namespace MFA

/-- The factor catalog, `self.factors` in `ScenarioGenerator.__init__`
(src/scenario_generator.py lines 21-48), in source order. -/
def factors : List String := [
  "F1 Disclosure-in-negotiations (D)",
  "F2 Bribe-employee (P)",
  "F3 Employee-sole-developer (D)",
  "F4 Agreed-not-to-disclose (P)",
  "F5 Agreement-not-specific (D)",
  "F6 Security-measures (P)",
  "F7 Brought-tools (P)",
  "F8 Competitive-advantage (P)",
  "F10 Secrets-disclosed-outsiders (D)",
  "F11 Vertical-knowledge (D)",
  "F12 Outsider-disclosures-restricted (P)",
  "F13 Noncompetition-agreement (P)",
  "F14 Restricted-materials-used (P)",
  "F15 Unique-product (P)",
  "F16 Info-reverse-engineerable (D)",
  "F17 Info-independently-generated (D)",
  "F18 Identical-products (P)",
  "F19 No-security-measures (D)",
  "F20 Info-known-to-competitors (D)",
  "F21 Knew-info-confidential (P)",
  "F22 Invasive-techniques (P)",
  "F23 Waiver-of-confidentiality (D)",
  "F24 Info-obtainable-elsewhere (D)",
  "F25 Info-reverse-engineered (D)",
  "F26 Deception (P)",
  "F27 Disclosure-in-public-forum (D)"
]

/-- Model of drawing `k` distinct elements from `pool` without replacement,
driven by the random stream `rng` (read from index `i` on).  This embeds
both `random.sample(pool, k)` and the rejection loops of the generator
(draw a random element, skip it when already chosen), which produce the
same family of outcomes over the RNG. -/
def sampleWR (rng : Nat → Nat) : Nat → List String → Nat → List String
  | _, _, 0 => []
  | i, pool, k + 1 =>
    if h : pool = [] then []
    else
      let x := pool.get ⟨rng i % pool.length, Nat.mod_lt _ (List.length_pos.mpr h)⟩
      x :: sampleWR rng (i + 1) (pool.erase x) k

theorem sampleWR_length (rng : Nat → Nat) (i : Nat) (pool : List String) (k : Nat) :
    (sampleWR rng i pool k).length = min k pool.length := by
  induction k generalizing i pool with
  | zero => simp [sampleWR]
  | succ k ih =>
    rw [sampleWR]
    by_cases h : pool = []
    · simp [h]
    · rw [dif_neg h]
      obtain ⟨m, hm⟩ : ∃ m, pool.length = m + 1 := by
        refine ⟨pool.length - 1, ?_⟩
        have := List.length_pos.mpr h
        omega
      have hx : pool.get ⟨rng i % pool.length, Nat.mod_lt _ (List.length_pos.mpr h)⟩ ∈ pool :=
        List.get_mem _ _ _
      have := List.length_erase_of_mem hx
      simp only [List.length_cons, ih]
      rw [this, hm]
      simp [Nat.succ_min_succ]

theorem sampleWR_subset (rng : Nat → Nat) (i : Nat) (pool : List String) (k : Nat) :
    ∀ x ∈ sampleWR rng i pool k, x ∈ pool := by
  induction k generalizing i pool with
  | zero => simp [sampleWR]
  | succ k ih =>
    intro x hx
    rw [sampleWR] at hx
    by_cases h : pool = []
    · simp [h] at hx
    · rw [dif_neg h] at hx
      rcases List.mem_cons.mp hx with h1 | h1
      · exact h1 ▸ List.get_mem _ _ _
      · exact List.erase_subset _ _ (ih _ _ x h1)

theorem sampleWR_nodup (rng : Nat → Nat) (i : Nat) (pool : List String) (k : Nat)
    (hp : pool.Nodup) : (sampleWR rng i pool k).Nodup := by
  induction k generalizing i pool with
  | zero => simp [sampleWR]
  | succ k ih =>
    rw [sampleWR]
    by_cases h : pool = []
    · simp [h]
    · rw [dif_neg h]
      refine List.nodup_cons.mpr ⟨?_, ih _ _ (hp.erase _)⟩
      intro hmem
      have := sampleWR_subset rng (i + 1) _ k _ hmem
      exact ((hp.mem_erase_iff).mp this).1 rfl

/-- Model of `random.randint(max(1, complexity-1), complexity+1)`, the target
size drawn at the head of `generate_input_factor` and `generate_tsc_factor`
(src/scenario_generator.py lines 76-78 and 96-98); `r` is the raw draw. -/
def targetDraw (r c : Nat) : Nat :=
  max 1 (c - 1) + r % (c + 1 - max 1 (c - 1) + 1)

theorem targetDraw_bounds (r c : Nat) :
    max 1 (c - 1) ≤ targetDraw r c ∧ targetDraw r c ≤ c + 1 := by
  unfold targetDraw
  have hlo : max 1 (c - 1) ≤ c + 1 := by omega
  have := Nat.mod_lt r (y := c + 1 - max 1 (c - 1) + 1) (by omega)
  omega

/-- Substring test on character lists, embedding Python's `pat in s`. -/
def subOcc (pat : List Char) : List Char → Bool
  | [] => pat.isPrefixOf []
  | c :: rest => pat.isPrefixOf (c :: rest) || subOcc pat rest

/-- `"(D)" in f` from the arguable branch of `generate_tsc_factor`. -/
def hasD (f : String) : Bool := subOcc "(D)".data f.data

/-- `"(P)" in f` from the arguable branch of `generate_tsc_factor`. -/
def hasP (f : String) : Bool := subOcc "(P)".data f.data

/-- `ScenarioGenerator.generate_input_factor` (src/scenario_generator.py
lines 71-88): draw a target count, then collect that many distinct catalog
factors by repeated random draws (modelled as without-replacement
selection driven by `rs`; `rt` is the `randint` draw). -/
def generate_input_factor (rt : Nat) (rs : Nat → Nat) (c : Nat) : List String :=
  sampleWR rs 0 factors (targetDraw rt c)

/-- The random draws consumed by one call of `generate_tsc_factor`:
`rt` the target-count draw, `rc` the `n_common` draw, `coin` the
`random.random() < 0.7` draw (modelled as `coin % 10 < 7`), `ro` the
`n_other` draw, and `s1`/`s2`/`s3` the streams behind the three
`random.sample` / fill selections. -/
structure TscRand where
  rt : Nat
  rc : Nat
  coin : Nat
  ro : Nat
  s1 : Nat → Nat
  s2 : Nat → Nat
  s3 : Nat → Nat

/-- `available_factors = [f for f in self.factors if f not in input_factors]`
from the unarguable branch (src/scenario_generator.py line 135). -/
def availableOf (input : List String) : List String :=
  factors.filter fun f => decide (f ∉ input)

/-- The seed of the arguable branch (src/scenario_generator.py lines
101-119): 1..min(3, n) factors sampled from the polarity-matching subset
of the input (Plaintiff factors for TSC1, Defendant factors for TSC2),
or nothing when that subset is empty. -/
def basePool (input : List String) (isT1 : Bool) : List String :=
  if isT1 then input.filter (fun f => hasP f) else input.filter (fun f => hasD f)

def arguableBase (r : TscRand) (input : List String) (isT1 : Bool) : List String :=
  if basePool input isT1 = [] then [] else
    sampleWR r.s1 0 (basePool input isT1)
      (1 + r.rc % min 3 (basePool input isT1).length)

/-- The shared-factor selection of the arguable branch before the fill
loop (src/scenario_generator.py lines 101-125): the polarity seed plus,
with probability 0.7, 1..min(3, n) further shared input factors. -/
def selOthers (r : TscRand) (input : List String) (isT1 : Bool) : List String :=
  input.filter fun f => decide (f ∉ arguableBase r input isT1)

def arguableSel (r : TscRand) (input : List String) (isT1 : Bool) : List String :=
  if selOthers r input isT1 ≠ [] ∧ r.coin % 10 < 7 then
    arguableBase r input isT1 ++
      sampleWR r.s2 0 (selOthers r input isT1)
        (1 + r.ro % min 3 (selOthers r input isT1).length)
  else arguableBase r input isT1

/-- `ScenarioGenerator.generate_tsc_factor` (src/scenario_generator.py
lines 90-154).  The arguable branch seeds shared input factors via
`arguableSel`, then fills with distinct random catalog factors up to the
target count; every other mode string takes the unarguable branch, which
samples from `catalog − input`, shrinking the target when too few
factors remain. -/
def generate_tsc_factor (r : TscRand) (input : List String) (mode : String)
    (isT1 : Bool) (c : Nat) : List String :=
  let target := targetDraw r.rt c
  if mode = "arguable" then
    let sel := arguableSel r input isT1
    sel ++ sampleWR r.s3 0 (factors.filter fun f => decide (f ∉ sel)) (target - sel.length)
  else
    let avail := availableOf input
    let target2 := if avail.length < target then avail.length else target
    sampleWR r.s3 0 avail target2

/-- The random draws consumed by `generate_input_scenario`: the input-set
draws, the two TSC draws, and the draws of the one-shot repair
regenerations. -/
structure ScenRand where
  ri : Nat
  rs : Nat → Nat
  r1 : TscRand
  r2 : TscRand
  q1 : TscRand
  q2 : TscRand

/-- The TSC pair before repair (src/scenario_generator.py lines 170-188):
both sides under arguable semantics, swapped, when both modes are
`"reordered"`; otherwise each side under its own mode. -/
def scenarioPair (R : ScenRand) (input : List String) (m1 m2 : String) (c : Nat) :
    List String × List String :=
  if m1 = "reordered" ∧ m2 = "reordered" then
    (generate_tsc_factor R.r2 input "arguable" false c,
     generate_tsc_factor R.r1 input "arguable" true c)
  else
    (generate_tsc_factor R.r1 input m1 true c,
     generate_tsc_factor R.r2 input m2 false c)

/-- The one-shot unarguable overlap repair of `generate_input_scenario`
for one side (src/scenario_generator.py lines 190-206): when the mode is
`"unarguable"` and the side overlaps the input, regenerate it once. -/
def repairSide (q : TscRand) (input : List String) (m : String) (b : Bool)
    (c : Nat) (t : List String) : List String :=
  if m = "unarguable" ∧ input.filter (fun f => decide (f ∈ t)) ≠ [] then
    generate_tsc_factor q input m b c
  else t

/-- `ScenarioGenerator.generate_input_scenario` (src/scenario_generator.py
lines 165-207): the input set, then both TSC sides from `scenarioPair`,
each passed through the one-shot unarguable repair `repairSide`. -/
def generate_input_scenario (R : ScenRand) (m1 m2 : String) (c : Nat) :
    List String × List String × List String :=
  let input := generate_input_factor R.ri R.rs c
  (input,
   repairSide R.q1 input m1 true c (scenarioPair R input m1 m2 c).1,
   repairSide R.q2 input m2 false c (scenarioPair R input m1 m2 c).2)

/-- The mode mapping applied by `ScenarioGenerator.__init__` to each of
`mode1`/`mode2`, and by `update_tsc` (src/scenario_generator.py lines
50-62 and 254-260): known external names are mapped through
`MODE_MAPPING`, internal names pass through, anything else defaults to
`"reordered"`. -/
def mapModeCtor (m : String) : String :=
  if m = "non-arguable" then "unarguable"
  else if m = "reordered" then "reordered"
  else if m = "arguable" then "arguable"
  else if m = "unarguable" ∨ m = "reordered" ∨ m = "arguable" then m
  else "reordered"

/-- The mode mapping applied by `generate_datasets`
(src/scenario_generator.py lines 347-353): same table, but anything
unrecognized defaults to `"unarguable"`. -/
def mapModeDataset (m : String) : String :=
  if m = "non-arguable" then "unarguable"
  else if m = "reordered" then "reordered"
  else if m = "arguable" then "arguable"
  else if m = "unarguable" ∨ m = "reordered" ∨ m = "arguable" then m
  else "unarguable"

/-- Numeric value of a digit run. -/
def digitsToNat (ds : List Char) : Nat :=
  ds.foldl (fun a c => 10 * a + (c.toNat - 48)) 0

/-- `ScenarioGenerator.extract_factor_number` (src/scenario_generator.py
lines 209-211): anchored match of `F(\d+)`; strings that do not match
sort last (`float('inf')`, modelled by a large sentinel). -/
def extract_factor_number (s : String) : Nat :=
  match s.data with
  | 'F' :: rest =>
    let ds := rest.takeWhile Char.isDigit
    if ds = [] then 1000000 else digitsToNat ds
  | _ => 1000000

/-- Stable insertion of a later element after all earlier elements with a
key not exceeding its own. -/
def insertByKey (x : String) : List String → List String
  | [] => [x]
  | y :: ys =>
    if extract_factor_number y ≤ extract_factor_number x then y :: insertByKey x ys
    else x :: y :: ys

/-- Python's stable `sorted(·, key=extract_factor_number)`. -/
def sortFactors (l : List String) : List String :=
  l.foldl (fun acc x => insertByKey x acc) []

/-- The factor-list separator `",\\n\t"` of both renderers
(src/scenario_generator.py lines 220-222 and 304-306): a comma, a literal
backslash, the letter `n`, and a tab — not a real newline. -/
def factorSep : String := ",\\n\t"

/-- `",\\n\t".join(sorted factors)`. -/
def joinFactors (l : List String) : String :=
  String.intercalate factorSep (sortFactors l)

/-- The rendered prompt template shared by `generate_initial_prompt` and
`update_tsc` (src/scenario_generator.py lines 226-250 and 310-334), with
the outcome labels swapped in reordered mode. -/
def renderPrompt (inp t1 t2 : List String) (swapped : Bool) : String :=
  let o1 := if swapped then "Defendant" else "Plaintiff"
  let o2 := if swapped then "Plaintiff" else "Defendant"
  "\nInput Scenario \n\t" ++ joinFactors inp ++
  "\n\nTSC 1\noutcome " ++ o1 ++ "\n\t" ++ joinFactors t1 ++
  "\n\nTSC 2\noutcome " ++ o2 ++ "\n\t" ++ joinFactors t2 ++ "\n"

/-- Whether `re.search(r'\\d+', x)` succeeds: the pattern is a literal
backslash followed by one or more letters `d`, so a match needs the
two-character sequence backslash-`d` somewhere in `x`. -/
def searchBackslashD : List Char → Bool
  | [] => false
  | '\\' :: 'd' :: _ => true
  | _ :: rest => searchBackslashD rest

/-- `ScenarioGenerator.generate_initial_prompt` (src/scenario_generator.py
lines 213-251).  Its sort key is `int(re.search(r'\\d+', x).group())`;
`sorted` evaluates the key on every element, and `.group()` on a failed
search raises `AttributeError`, modelled as `none`.  The `some` branch
(every factor string containing a literal backslash-`d`) renders the
template; it is unreachable for catalog factor strings. -/
def generate_initial_prompt (inp t1 t2 : List String) (swapped : Bool) : Option String :=
  if (inp ++ t1 ++ t2).all fun s => searchBackslashD s.data then
    some (renderPrompt inp t1 t2 swapped)
  else none

/-- Split a character list at newline characters, embedding
`input_text.split('\n')` (src/score_calculation.py line 30). -/
def splitLinesC : List Char → List (List Char)
  | [] => [[]]
  | c :: rest =>
    let r := splitLinesC rest
    if c = '\n' then [] :: r else (c :: r.headD []) :: r.tail

/-- Python `str.strip()` on a character list. -/
def trimC (cs : List Char) : List Char :=
  ((cs.dropWhile Char.isWhitespace).reverse.dropWhile Char.isWhitespace).reverse

/-- Python `str.rstrip(',')` on a character list. -/
def rstripCommas (cs : List Char) : List Char :=
  (cs.reverse.dropWhile fun c => c = ',').reverse

/-- Strip `p` as a prefix of `s`, returning the remainder on success. -/
def stripPfxC : List Char → List Char → Option (List Char)
  | [], s => some s
  | _ :: _, [] => none
  | p :: ps, c :: cs => if p = c then stripPfxC ps cs else none

/-- Zero or more whitespace characters followed by the word `w`. -/
def wsStarThen (w : List Char) : List Char → Bool
  | [] => w.isEmpty
  | c :: cs => (stripPfxC w (c :: cs)).isSome || (c.isWhitespace && wsStarThen w cs)

/-- One or more whitespace characters followed by the word `w`
(the `\s+` of the section-header regexes). -/
def wsPlusThen (w : List Char) : List Char → Bool
  | [] => false
  | c :: cs => c.isWhitespace && wsStarThen w cs

/-- Match `w1 ++ \s+ ++ w2` at the current position. -/
def headerAt (w1 w2 s : List Char) : Bool :=
  match stripPfxC w1 s with
  | some r => wsPlusThen w2 r
  | none => false

/-- `re.search` of `w1\s+w2` anywhere in the line, embedding the
section-header patterns of `extract_case_factors`
(src/score_calculation.py lines 22-24). -/
def headerSearch (w1 w2 : List Char) : List Char → Bool
  | [] => headerAt w1 w2 []
  | c :: rest => headerAt w1 w2 (c :: rest) || headerSearch w1 w2 rest

/-- The `[^(]+\([PD]\)` tail of the factor regex: at least one
non-parenthesis character, then `(P)` or `(D)` (necessarily at the first
parenthesis). -/
def bodyCheck (r : List Char) : Bool :=
  let pre := r.takeWhile fun c => c ≠ '('
  !pre.isEmpty &&
    (match r.drop pre.length with
     | '(' :: p :: ')' :: _ => p = 'P' || p = 'D'
     | _ => false)

/-- Match the factor pattern `F\d+\s+[^(]+\([PD]\)` at the current
position (src/score_calculation.py line 25). -/
def factorAt : List Char → Bool
  | 'F' :: rest =>
    let ds := rest.takeWhile Char.isDigit
    !ds.isEmpty &&
      (match rest.drop ds.length with
       | c :: r2 => c.isWhitespace && bodyCheck r2
       | [] => false)
  | _ => false

/-- `re.search` of the factor pattern anywhere in the line. -/
def factorSearch : List Char → Bool
  | [] => false
  | c :: rest => factorAt (c :: rest) || factorSearch rest

/-- The line loop of `extract_case_factors` (src/score_calculation.py
lines 27-49): section state 0 = none, 1 = Input, 2 = TSC1, 3 = TSC2. -/
def extractGo : List (List Char) → Nat → List String × List String × List String
  | [], _ => ([], [], [])
  | l :: rest, sec =>
    let t := trimC l
    if t.isEmpty then extractGo rest sec
    else if headerSearch "Input".data "Scenario".data t then extractGo rest 1
    else if headerSearch "TSC".data "1".data t then extractGo rest 2
    else if headerSearch "TSC".data "2".data t then extractGo rest 3
    else if factorSearch t then
      let f := String.mk (rstripCommas t)
      let r := extractGo rest sec
      match sec with
      | 1 => (f :: r.1, r.2.1, r.2.2)
      | 2 => (r.1, f :: r.2.1, r.2.2)
      | 3 => (r.1, r.2.1, f :: r.2.2)
      | _ => r
    else extractGo rest sec

/-- `extract_case_factors` (src/score_calculation.py lines 7-50). -/
def extract_case_factors (text : String) : List String × List String × List String :=
  extractGo (splitLinesC text.data) 0

/-- The three factor lists of a parsed row: used both for the actual
(ground-truth) sections returned by `process_csv_row` and for the claimed
(distilled) sections returned by `process_distilled_factors` (the keys of
its three dictionaries, in order). -/
structure Sections where
  input : List String
  tsc1 : List String
  tsc2 : List String

/-- Count of elements of `xs` absent from `ys`, the per-section loop of
`count_factor_mismatches` and `count_factor_weaknesses`
(src/score_calculation.py lines 151-164 and 193-206). -/
def countNotIn (xs ys : List String) : Nat :=
  (xs.filter fun x => decide (x ∉ ys)).length

/-- Total mismatches: claimed factors absent from the corresponding
actual sections (`count_factor_mismatches`). -/
def mismTotal (a c : Sections) : Nat :=
  countNotIn c.input a.input + countNotIn c.tsc1 a.tsc1 + countNotIn c.tsc2 a.tsc2

/-- Total weaknesses: actual factors absent from the corresponding
claimed sections (`count_factor_weaknesses`). -/
def weakTotal (a c : Sections) : Nat :=
  countNotIn a.input c.input + countNotIn a.tsc1 c.tsc1 + countNotIn a.tsc2 c.tsc2

/-- `original_total_factors` (src/score_calculation.py line 148); also the
per-row `total_factors` of both scoring loops, which sum the same three
section lengths. -/
def origTotal (a : Sections) : Nat :=
  a.input.length + a.tsc1.length + a.tsc2.length

/-- `distilled_total_factors` (src/score_calculation.py line 149). -/
def distTotal (c : Sections) : Nat :=
  c.input.length + c.tsc1.length + c.tsc2.length

/-- Python `str.lower()`. -/
def strToLower (s : String) : String :=
  String.mk (s.data.map Char.toLower)

/-- Per-row accuracy of `pipeline.calculate_scores` (src/pipeline.py line
201): `1 - total_mismatches / total_factors_in_row` when the row has
factors, else 0. -/
def pipelineAccuracy (a c : Sections) : ℚ :=
  if 0 < origTotal a then 1 - (mismTotal a c : ℚ) / (origTotal a : ℚ) else 0

/-- Per-row successful-abstention predicate of `pipeline.calculate_scores`
(src/pipeline.py line 203): no weaknesses and no distilled factors. -/
def pipelineAbstention (a c : Sections) : Bool :=
  weakTotal a c == 0 && distTotal c == 0

/-- Per-row strength of `pipeline.calculate_scores` (src/pipeline.py lines
206-217): mode-dependent, with the unarguable formula keyed on the
lowercased mode name. -/
def pipelineStrength (mode : String) (a c : Sections) : ℚ :=
  if strToLower mode = "non-arguable" ∨ strToLower mode = "unarguable" then
    if 0 < origTotal a then 1 - (distTotal c : ℚ) / (origTotal a : ℚ)
    else if distTotal c = 0 then 1
    else 0
  else
    if 0 < origTotal a then 1 - (weakTotal a c : ℚ) / (origTotal a : ℚ) else 0

/-- Per-row accuracy of `score_calculation.process_csv_file`
(src/score_calculation.py line 253). -/
def scoreCalcAccuracy (a c : Sections) : ℚ :=
  if 0 < origTotal a then 1 - (mismTotal a c : ℚ) / (origTotal a : ℚ) else 0

/-- Per-row strength of `score_calculation.process_csv_file`
(src/score_calculation.py line 254): always the weakness formula,
whatever the mode. -/
def scoreCalcStrength (a c : Sections) : ℚ :=
  if 0 < origTotal a then 1 - (weakTotal a c : ℚ) / (origTotal a : ℚ) else 0

/-- Per-row successful-abstention predicate of
`score_calculation.process_csv_file` (src/score_calculation.py lines
246-250): all three claimed dictionaries empty, weaknesses ignored. -/
def scoreCalcAbstention (c : Sections) : Bool :=
  c.input.isEmpty && c.tsc1.isEmpty && c.tsc2.isEmpty

/-- The recorded percentage `all_accuracies.append(accuracy * 100)`
(src/pipeline.py line 219). -/
def pipelineAccuracyPct (a c : Sections) : ℚ := pipelineAccuracy a c * 100

/-- The recorded percentage `all_strengths.append(strength * 100)`
(src/pipeline.py line 220). -/
def pipelineStrengthPct (mode : String) (a c : Sections) : ℚ :=
  pipelineStrength mode a c * 100

/-- The recorded percentage of src/score_calculation.py line 256. -/
def scoreCalcAccuracyPct (a c : Sections) : ℚ := scoreCalcAccuracy a c * 100

/-- The strength contract of spec section 4.4, written from the spec's
words for comparison with the code-side `pipelineStrength` /
`scoreCalcStrength`: mode-dependent, with the Unarguable branch using
`1 - dist/orig` and the other branch `1 - totalWeaknesses/totalFactors`. -/
def strengthSpec (mode : String) (a c : Sections) : ℚ :=
  if strToLower mode = "non-arguable" ∨ strToLower mode = "unarguable" then
    if 0 < origTotal a then 1 - (distTotal c : ℚ) / (origTotal a : ℚ)
    else if distTotal c = 0 then 1
    else 0
  else
    if 0 < origTotal a then 1 - (weakTotal a c : ℚ) / (origTotal a : ℚ) else 0

/-- The Unarguable branch of the spec's strength contract on its own. -/
def strengthSpecUnarguable (a c : Sections) : ℚ :=
  if 0 < origTotal a then 1 - (distTotal c : ℚ) / (origTotal a : ℚ)
  else if distTotal c = 0 then 1
  else 0

/-- Non-empty string intersection test, embedding the overlap checks
`[f for f in input_factors if f in tsc]` (src/scenario_generator.py lines
192, 200, 368-369) and `any(factor in self.input_factors for factor in
self.tscN)` (lines 279, 290). -/
def overlapB (input tsc : List String) : Bool :=
  !(input.filter fun f => decide (f ∈ tsc)).isEmpty

/-- The one-shot repair of `generate_input_scenario` for one side
(src/scenario_generator.py lines 190-206), abstracted over the sequence
`g k` of candidate sides the RNG would produce: check the freshly
generated side `g 0` once and, on overlap, emit the single regeneration
`g 1` without re-checking it. -/
def ctorRepair (g : Nat → List String) (input : List String) : List String :=
  if overlapB input (g 0) then g 1 else g 0

/-- The bounded retry loop shared by `update_tsc` and `generate_datasets`
(src/scenario_generator.py lines 278-284, 289-295, 365-380): while the
current candidate is bad and fewer than 5 attempts were made, take the
next candidate.  `fuel` dominates the loop; 6 suffices for the bound 5. -/
def repairLoopGo {α : Type} (g : Nat → α) (bad : α → Bool) :
    Nat → Nat → α → α
  | 0, _, cur => cur
  | fuel + 1, attempts, cur =>
    if bad cur = true ∧ attempts < 5 then
      repairLoopGo g bad fuel (attempts + 1) (g (attempts + 1))
    else cur

/-- The repair loop of `update_tsc` for one side (src/scenario_generator.py
lines 278-284 and 289-295): regenerate an overlapping side, re-checking,
up to 5 attempts, then emit whatever is current. -/
def updateRepair (g : Nat → List String) (input : List String) : List String :=
  repairLoopGo g (fun t => overlapB input t) 6 0 (g 0)

/-- The scenario-level repair loop of `generate_datasets`
(src/scenario_generator.py lines 363-380): restart the whole scenario
while either side overlaps the input, up to 5 attempts. -/
def datasetRepair (S : Nat → List String × List String × List String) :
    List String × List String × List String :=
  repairLoopGo S (fun s => overlapB s.1 s.2.1 || overlapB s.1 s.2.2) 6 0 (S 0)

/-- Canonical-form check `F<id> <label> (<P|D>)` for a catalog entry. -/
def canonicalFactor (s : String) : Bool :=
  match s.data with
  | 'F' :: rest =>
    let ds := rest.takeWhile Char.isDigit
    !ds.isEmpty &&
      (match rest.drop ds.length with
       | ' ' :: label =>
         (match label.reverse with
          | ')' :: p :: '(' :: ' ' :: lab => (p = 'P' || p = 'D') && !lab.isEmpty
          | _ => false)
       | _ => false)
  | _ => false

/-- The numeric id of a catalog entry. -/
def extractId (s : String) : Nat :=
  match s.data with
  | 'F' :: rest => digitsToNat (rest.takeWhile Char.isDigit)
  | _ => 0

theorem factors_nodup : factors.Nodup := by decide

/-- Unfolding of the unarguable (else) branch of `generate_tsc_factor`. -/
theorem generate_tsc_factor_unarg (r : TscRand) (input : List String) (mode : String)
    (b : Bool) (c : Nat) (h : mode ≠ "arguable") :
    generate_tsc_factor r input mode b c =
      sampleWR r.s3 0 (availableOf input)
        (if (availableOf input).length < targetDraw r.rt c then (availableOf input).length
         else targetDraw r.rt c) := by
  rw [generate_tsc_factor, if_neg h]

/-- Every factor returned by the unarguable branch comes from the catalog
and avoids the input set. -/
theorem mem_generate_tsc_unarg (r : TscRand) (input : List String) (mode : String)
    (b : Bool) (c : Nat) (h : mode ≠ "arguable") :
    ∀ x ∈ generate_tsc_factor r input mode b c, x ∈ factors ∧ x ∉ input := by
  intro x hx
  rw [generate_tsc_factor_unarg r input mode b c h] at hx
  have := sampleWR_subset _ _ _ _ x hx
  rw [availableOf, List.mem_filter] at this
  exact ⟨this.1, of_decide_eq_true this.2⟩

/-- The overlap check against an unarguable-branch side is always false. -/
theorem overlap_generate_tsc_unarg (r : TscRand) (input : List String) (mode : String)
    (b : Bool) (c : Nat) (h : mode ≠ "arguable") :
    overlapB input (generate_tsc_factor r input mode b c) = false := by
  rw [overlapB, Bool.not_eq_false', List.isEmpty_iff, List.filter_eq_nil_iff]
  intro f _ hf
  have hmem := of_decide_eq_true hf
  exact (mem_generate_tsc_unarg r input mode b c h f hmem).2 ‹f ∈ input›

/-- C6 counterexample: the catalog has 26 entries, not 25 — `self.factors`
in `ScenarioGenerator.__init__` lists ids F1..F27 with only F9 missing. -/
theorem C6_catalog_cex : factors.length = 26 ∧ ¬factors.length = 25 := by decide

/-- C6 (amended): the factor catalog is a fixed ordered list of exactly 26
entries, each of canonical form `F<id> <label> (<P|D>)`, and exactly one
id (9) is absent from the otherwise consecutive id sequence 1..27. -/
theorem C6_catalog_amended :
    factors.length = 26 ∧
    factors.all canonicalFactor = true ∧
    factors.map extractId =
      [1, 2, 3, 4, 5, 6, 7, 8, 10, 11, 12, 13, 14, 15, 16, 17, 18, 19, 20,
       21, 22, 23, 24, 25, 26, 27] ∧
    (List.range' 1 27).filter (fun n => decide (n ∉ factors.map extractId)) = [9] := by
  decide

/-- C8: recognized external mode names map to their internal
`GenerationMode` values in both call paths, while every unrecognized name
defaults to `"reordered"` in the constructor path and to `"unarguable"`
in the `generate_datasets` path. -/
theorem C8_mode_defaults (m : String)
    (h : m ∉ ["non-arguable", "reordered", "arguable", "unarguable"]) :
    mapModeCtor m = "reordered" ∧ mapModeDataset m = "unarguable" ∧
    mapModeCtor "non-arguable" = "unarguable" ∧ mapModeCtor "reordered" = "reordered" ∧
    mapModeCtor "arguable" = "arguable" ∧ mapModeCtor "unarguable" = "unarguable" ∧
    mapModeDataset "non-arguable" = "unarguable" ∧ mapModeDataset "reordered" = "reordered" ∧
    mapModeDataset "arguable" = "arguable" ∧ mapModeDataset "unarguable" = "unarguable" := by
  simp only [List.mem_cons, List.not_mem_nil, or_false, not_or] at h
  obtain ⟨h1, h2, h3, h4⟩ := h
  have hd : ¬(m = "unarguable" ∨ m = "reordered" ∨ m = "arguable") := by tauto
  refine ⟨?_, ?_, rfl, rfl, rfl, rfl, rfl, rfl, rfl, rfl⟩
  · rw [mapModeCtor, if_neg h1, if_neg h2, if_neg h3, if_neg hd]
  · rw [mapModeDataset, if_neg h1, if_neg h2, if_neg h3, if_neg hd]

/-- Witness for C8 at the concrete unrecognized name `"citable"` (the
default `mode` argument of `update_tsc`). -/
theorem C8_mode_defaults_witness :
    mapModeCtor "citable" = "reordered" ∧ mapModeDataset "citable" = "unarguable" ∧
    mapModeCtor "non-arguable" = "unarguable" ∧ mapModeCtor "reordered" = "reordered" ∧
    mapModeCtor "arguable" = "arguable" ∧ mapModeCtor "unarguable" = "unarguable" ∧
    mapModeDataset "non-arguable" = "unarguable" ∧ mapModeDataset "reordered" = "reordered" ∧
    mapModeDataset "arguable" = "arguable" ∧ mapModeDataset "unarguable" = "unarguable" :=
  C8_mode_defaults "citable" (by decide)

/-- C1 (code bug): for the concrete scenario with input factors F1 and F2,
TSC1 = F3, TSC2 = F4, the renderer `generate_initial_prompt` fails (its
sort key `int(re.search(r'\\d+', x).group())` searches for a literal
backslash, never matches a factor string, and raises `AttributeError`),
and even the sibling renderer of `update_tsc` (correct sort key, same
literal `",\\n\t"` separator) produces text from which
`extract_case_factors` recovers the Input section as one concatenated
string rather than the two-factor set — the singleton TSC sections are
the only ones recovered intact. -/
theorem C1_roundtrip_bug :
    generate_initial_prompt
      ["F1 Disclosure-in-negotiations (D)", "F2 Bribe-employee (P)"]
      ["F3 Employee-sole-developer (D)"] ["F4 Agreed-not-to-disclose (P)"] false = none ∧
    extract_case_factors
      (renderPrompt ["F1 Disclosure-in-negotiations (D)", "F2 Bribe-employee (P)"]
        ["F3 Employee-sole-developer (D)"] ["F4 Agreed-not-to-disclose (P)"] false) =
      (["F1 Disclosure-in-negotiations (D),\\n\tF2 Bribe-employee (P)"],
       ["F3 Employee-sole-developer (D)"], ["F4 Agreed-not-to-disclose (P)"]) ∧
    "F1 Disclosure-in-negotiations (D)" ∉
      (extract_case_factors
        (renderPrompt ["F1 Disclosure-in-negotiations (D)", "F2 Bribe-employee (P)"]
          ["F3 Employee-sole-developer (D)"] ["F4 Agreed-not-to-disclose (P)"] false)).1 := by
  refine ⟨rfl, by decide, by decide⟩

/-- C3 counterexample: for a row whose actual sections are all non-empty
and whose claimed sections are all empty, the weakness count is 3, yet
`process_csv_file` (src/score_calculation.py lines 246-250) still counts
the row as a successful abstention — its predicate ignores weaknesses, so
the claimed conjunction does not hold in both scoring implementations. -/
theorem C3_abstention_cex :
    scoreCalcAbstention ⟨[], [], []⟩ = true ∧
    weakTotal
      ⟨["F2 Bribe-employee (P)"], ["F6 Security-measures (P)"],
       ["F10 Secrets-disclosed-outsiders (D)"]⟩ ⟨[], [], []⟩ = 3 ∧
    pipelineAbstention
      ⟨["F2 Bribe-employee (P)"], ["F6 Security-measures (P)"],
       ["F10 Secrets-disclosed-outsiders (D)"]⟩ ⟨[], [], []⟩ = false := by
  decide

/-- C3 (amended): `pipeline.calculate_scores` counts a row as a successful
abstention exactly when `totalWeaknesses = 0` and `dist = 0`, so a row
with non-empty actual sections and empty claims is not counted there;
`score_calculation.process_csv_file` counts a row exactly when all three
claimed sections are empty (`dist = 0`), ignoring weaknesses, so such a
row is counted there. -/
theorem C3_abstention_amended (a c : Sections) :
    (pipelineAbstention a c = true ↔ weakTotal a c = 0 ∧ distTotal c = 0) ∧
    (scoreCalcAbstention c = true ↔ distTotal c = 0) ∧
    (a.input ≠ [] → a.tsc1 ≠ [] → a.tsc2 ≠ [] →
      c.input = [] → c.tsc1 = [] → c.tsc2 = [] →
      0 < weakTotal a c ∧ pipelineAbstention a c = false ∧
        scoreCalcAbstention c = true) := by
  refine ⟨?_, ?_, ?_⟩
  · simp [pipelineAbstention]
  · simp only [scoreCalcAbstention, Bool.and_eq_true, List.isEmpty_iff, distTotal]
    constructor
    · rintro ⟨⟨hi, h1⟩, h2⟩
      simp [hi, h1, h2]
    · intro h
      have hi : c.input.length = 0 := by omega
      have h1 : c.tsc1.length = 0 := by omega
      have h2 : c.tsc2.length = 0 := by omega
      simp_all [List.length_eq_zero]
  · intro ha _ _ hci hc1 hc2
    have hw : 0 < weakTotal a c := by
      have : countNotIn a.input c.input = a.input.length := by
        simp [countNotIn, hci]
      have hpos : 0 < a.input.length := List.length_pos.mpr ha
      unfold weakTotal
      omega
    refine ⟨hw, ?_, ?_⟩
    · have hne : weakTotal a c ≠ 0 := by omega
      simp [pipelineAbstention, hne]
    · simp [scoreCalcAbstention, hci, hc1, hc2]

/-- Witness for C3's amended theorem at the concrete abstention-edge row. -/
theorem C3_abstention_amended_witness :
    0 < weakTotal
      ⟨["F2 Bribe-employee (P)"], ["F6 Security-measures (P)"],
       ["F10 Secrets-disclosed-outsiders (D)"]⟩ ⟨[], [], []⟩ ∧
    pipelineAbstention
      ⟨["F2 Bribe-employee (P)"], ["F6 Security-measures (P)"],
       ["F10 Secrets-disclosed-outsiders (D)"]⟩ ⟨[], [], []⟩ = false ∧
    scoreCalcAbstention ⟨[], [], []⟩ = true :=
  (C3_abstention_amended
      ⟨["F2 Bribe-employee (P)"], ["F6 Security-measures (P)"],
       ["F10 Secrets-disclosed-outsiders (D)"]⟩ ⟨[], [], []⟩).2.2
    (by decide) (by decide) (by decide) rfl rfl rfl

/-- C4 counterexample: a concrete row on which the strength computed by
`process_csv_file` (always `1 - weaknesses/orig`) differs from the
unarguable-mode strength `1 - dist/orig` that the claim asserts for every
scoring path; `pipeline.calculate_scores` under mode "unarguable" does
produce the latter. -/
theorem C4_strength_cex :
    scoreCalcStrength
      ⟨["F2 Bribe-employee (P)"], ["F6 Security-measures (P)"],
       ["F10 Secrets-disclosed-outsiders (D)"]⟩
      ⟨["F2 Bribe-employee (P)"], [], []⟩ = 1 / 3 ∧
    strengthSpecUnarguable
      ⟨["F2 Bribe-employee (P)"], ["F6 Security-measures (P)"],
       ["F10 Secrets-disclosed-outsiders (D)"]⟩
      ⟨["F2 Bribe-employee (P)"], [], []⟩ = 2 / 3 ∧
    scoreCalcStrength
      ⟨["F2 Bribe-employee (P)"], ["F6 Security-measures (P)"],
       ["F10 Secrets-disclosed-outsiders (D)"]⟩
      ⟨["F2 Bribe-employee (P)"], [], []⟩ ≠
      strengthSpecUnarguable
        ⟨["F2 Bribe-employee (P)"], ["F6 Security-measures (P)"],
         ["F10 Secrets-disclosed-outsiders (D)"]⟩
        ⟨["F2 Bribe-employee (P)"], [], []⟩ ∧
    pipelineStrength "unarguable"
      ⟨["F2 Bribe-employee (P)"], ["F6 Security-measures (P)"],
       ["F10 Secrets-disclosed-outsiders (D)"]⟩
      ⟨["F2 Bribe-employee (P)"], [], []⟩ = 2 / 3 := by
  have hw : weakTotal
      ⟨["F2 Bribe-employee (P)"], ["F6 Security-measures (P)"],
       ["F10 Secrets-disclosed-outsiders (D)"]⟩
      ⟨["F2 Bribe-employee (P)"], [], []⟩ = 2 := by decide
  have ho : origTotal
      ⟨["F2 Bribe-employee (P)"], ["F6 Security-measures (P)"],
       ["F10 Secrets-disclosed-outsiders (D)"]⟩ = 3 := by decide
  have hd : distTotal ⟨["F2 Bribe-employee (P)"], [], []⟩ = 1 := by decide
  have e1 : scoreCalcStrength
      ⟨["F2 Bribe-employee (P)"], ["F6 Security-measures (P)"],
       ["F10 Secrets-disclosed-outsiders (D)"]⟩
      ⟨["F2 Bribe-employee (P)"], [], []⟩ = 1 / 3 := by
    rw [scoreCalcStrength, if_pos (by rw [ho]; omega), hw, ho]
    norm_num
  have e2 : strengthSpecUnarguable
      ⟨["F2 Bribe-employee (P)"], ["F6 Security-measures (P)"],
       ["F10 Secrets-disclosed-outsiders (D)"]⟩
      ⟨["F2 Bribe-employee (P)"], [], []⟩ = 2 / 3 := by
    rw [strengthSpecUnarguable, if_pos (by rw [ho]; omega), hd, ho]
    norm_num
  refine ⟨e1, e2, by rw [e1, e2]; norm_num, ?_⟩
  rw [pipelineStrength, if_pos (by right; rfl), if_pos (by rw [ho]; omega), hd, ho]
  norm_num

/-- C4 (amended): only `pipeline.calculate_scores` is mode-dependent,
computing the spec's piecewise strength (unarguable branch `1 - dist/orig`
with the 1/0 degenerate cases, otherwise `1 - weaknesses/orig`);
`score_calculation.process_csv_file` computes `1 - weaknesses/orig`
(0 when `orig = 0`) for every mode. -/
theorem C4_strength_amended (mode : String) (a c : Sections) :
    (strToLower mode = "non-arguable" ∨ strToLower mode = "unarguable" →
      (0 < origTotal a →
        pipelineStrength mode a c = 1 - (distTotal c : ℚ) / (origTotal a : ℚ)) ∧
      (origTotal a = 0 → distTotal c = 0 → pipelineStrength mode a c = 1) ∧
      (origTotal a = 0 → 0 < distTotal c → pipelineStrength mode a c = 0)) ∧
    (¬(strToLower mode = "non-arguable" ∨ strToLower mode = "unarguable") →
      (0 < origTotal a →
        pipelineStrength mode a c = 1 - (weakTotal a c : ℚ) / (origTotal a : ℚ)) ∧
      (origTotal a = 0 → pipelineStrength mode a c = 0)) ∧
    (0 < origTotal a →
      scoreCalcStrength a c = 1 - (weakTotal a c : ℚ) / (origTotal a : ℚ)) ∧
    (origTotal a = 0 → scoreCalcStrength a c = 0) := by
  refine ⟨fun hm => ⟨fun h0 => ?_, fun h0 hd => ?_, fun h0 hd => ?_⟩,
    fun hm => ⟨fun h0 => ?_, fun h0 => ?_⟩, fun h0 => ?_, fun h0 => ?_⟩
  · rw [pipelineStrength, if_pos hm, if_pos h0]
  · rw [pipelineStrength, if_pos hm, if_neg (by omega), if_pos hd]
  · rw [pipelineStrength, if_pos hm, if_neg (by omega), if_neg (by omega)]
  · rw [pipelineStrength, if_neg hm, if_pos h0]
  · rw [pipelineStrength, if_neg hm, if_neg (by omega)]
  · rw [scoreCalcStrength, if_pos h0]
  · rw [scoreCalcStrength, if_neg (by omega)]

/-- Witness for C4's amended theorem: the unarguable branch evaluated on
the counterexample row of C4. -/
theorem C4_strength_amended_witness :
    pipelineStrength "unarguable"
      ⟨["F2 Bribe-employee (P)"], ["F6 Security-measures (P)"],
       ["F10 Secrets-disclosed-outsiders (D)"]⟩
      ⟨["F2 Bribe-employee (P)"], [], []⟩ =
      1 - ((distTotal ⟨["F2 Bribe-employee (P)"], [], []⟩ : ℚ) /
        (origTotal
          ⟨["F2 Bribe-employee (P)"], ["F6 Security-measures (P)"],
           ["F10 Secrets-disclosed-outsiders (D)"]⟩ : ℚ)) :=
  ((C4_strength_amended "unarguable"
      ⟨["F2 Bribe-employee (P)"], ["F6 Security-measures (P)"],
       ["F10 Secrets-disclosed-outsiders (D)"]⟩
      ⟨["F2 Bribe-employee (P)"], [], []⟩).1 (by decide)).1 (by decide)

/-- C10: neither accuracy nor the unarguable strength is clamped to
[0, 1]: whenever the claimed labels absent from the actual sections
outnumber the actual factors, both implementations compute a strictly
negative accuracy, and when `dist > orig > 0` the pipeline's unarguable
strength is strictly negative too; the recorded percentages (`× 100`)
are negative unchanged. -/
theorem C10_negative_metrics (a c : Sections)
    (h1 : 0 < origTotal a) (h2 : origTotal a < mismTotal a c)
    (h3 : origTotal a < distTotal c) :
    pipelineAccuracy a c < 0 ∧ scoreCalcAccuracy a c < 0 ∧
    pipelineAccuracyPct a c < 0 ∧ scoreCalcAccuracyPct a c < 0 ∧
    pipelineStrength "unarguable" a c < 0 ∧
    pipelineStrengthPct "unarguable" a c < 0 := by
  have ho : (0 : ℚ) < (origTotal a : ℚ) := by exact_mod_cast h1
  have hm : (origTotal a : ℚ) < (mismTotal a c : ℚ) := by exact_mod_cast h2
  have hd : (origTotal a : ℚ) < (distTotal c : ℚ) := by exact_mod_cast h3
  have hacc : pipelineAccuracy a c < 0 := by
    rw [pipelineAccuracy, if_pos h1]
    have : (1 : ℚ) < (mismTotal a c : ℚ) / (origTotal a : ℚ) :=
      (one_lt_div ho).mpr hm
    linarith
  have hstr : pipelineStrength "unarguable" a c < 0 := by
    rw [pipelineStrength, if_pos (by right; rfl), if_pos h1]
    have : (1 : ℚ) < (distTotal c : ℚ) / (origTotal a : ℚ) :=
      (one_lt_div ho).mpr hd
    linarith
  refine ⟨hacc, hacc, ?_, ?_, hstr, ?_⟩
  · exact mul_neg_of_neg_of_pos hacc (by norm_num)
  · exact mul_neg_of_neg_of_pos hacc (by norm_num)
  · exact mul_neg_of_neg_of_pos hstr (by norm_num)

/-- Witness for C10: three actual factors, five foreign claimed labels. -/
theorem C10_negative_metrics_witness :
    pipelineAccuracy
      ⟨["F2 Bribe-employee (P)"], ["F6 Security-measures (P)"],
       ["F10 Secrets-disclosed-outsiders (D)"]⟩
      ⟨["F9 Unknown-factor (P)", "F28 Unknown-factor (D)", "F29 Unknown-factor (P)",
        "F30 Unknown-factor (D)", "F31 Unknown-factor (P)"], [], []⟩ < 0 ∧
    scoreCalcAccuracy
      ⟨["F2 Bribe-employee (P)"], ["F6 Security-measures (P)"],
       ["F10 Secrets-disclosed-outsiders (D)"]⟩
      ⟨["F9 Unknown-factor (P)", "F28 Unknown-factor (D)", "F29 Unknown-factor (P)",
        "F30 Unknown-factor (D)", "F31 Unknown-factor (P)"], [], []⟩ < 0 ∧
    pipelineAccuracyPct
      ⟨["F2 Bribe-employee (P)"], ["F6 Security-measures (P)"],
       ["F10 Secrets-disclosed-outsiders (D)"]⟩
      ⟨["F9 Unknown-factor (P)", "F28 Unknown-factor (D)", "F29 Unknown-factor (P)",
        "F30 Unknown-factor (D)", "F31 Unknown-factor (P)"], [], []⟩ < 0 ∧
    scoreCalcAccuracyPct
      ⟨["F2 Bribe-employee (P)"], ["F6 Security-measures (P)"],
       ["F10 Secrets-disclosed-outsiders (D)"]⟩
      ⟨["F9 Unknown-factor (P)", "F28 Unknown-factor (D)", "F29 Unknown-factor (P)",
        "F30 Unknown-factor (D)", "F31 Unknown-factor (P)"], [], []⟩ < 0 ∧
    pipelineStrength "unarguable"
      ⟨["F2 Bribe-employee (P)"], ["F6 Security-measures (P)"],
       ["F10 Secrets-disclosed-outsiders (D)"]⟩
      ⟨["F9 Unknown-factor (P)", "F28 Unknown-factor (D)", "F29 Unknown-factor (P)",
        "F30 Unknown-factor (D)", "F31 Unknown-factor (P)"], [], []⟩ < 0 ∧
    pipelineStrengthPct "unarguable"
      ⟨["F2 Bribe-employee (P)"], ["F6 Security-measures (P)"],
       ["F10 Secrets-disclosed-outsiders (D)"]⟩
      ⟨["F9 Unknown-factor (P)", "F28 Unknown-factor (D)", "F29 Unknown-factor (P)",
        "F30 Unknown-factor (D)", "F31 Unknown-factor (P)"], [], []⟩ < 0 :=
  C10_negative_metrics _ _ (by decide) (by decide) (by decide)

/-- C2: a single unarguable-mode call of `generate_tsc_factor` returns
distinct factors drawn only from `catalog − inputFactors` (hence disjoint
from the input set by construction), and its length is the target count
shrunk to the number of available factors when fewer remain. -/
theorem C2_unarguable_call (r : TscRand) (input : List String) (mode : String)
    (b : Bool) (c : Nat) (h : mode ≠ "arguable") :
    ((generate_tsc_factor r input mode b c).all fun x =>
      decide (x ∈ factors) && decide (x ∉ input)) = true ∧
    (generate_tsc_factor r input mode b c).Nodup ∧
    (generate_tsc_factor r input mode b c).length =
      min (targetDraw r.rt c) (availableOf input).length := by
  refine ⟨?_, ?_, ?_⟩
  · rw [List.all_eq_true]
    intro x hx
    have := mem_generate_tsc_unarg r input mode b c h x hx
    simp [this.1, this.2]
  · rw [generate_tsc_factor_unarg r input mode b c h]
    exact sampleWR_nodup _ _ _ _ (factors_nodup.filter _)
  · rw [generate_tsc_factor_unarg r input mode b c h, sampleWR_length]
    rcases Nat.lt_or_ge (availableOf input).length (targetDraw r.rt c) with hlt | hge
    · rw [if_pos hlt]
      omega
    · rw [if_neg (by omega)]

/-- Witness for C2 at a concrete call (empty input, mode "unarguable"). -/
theorem C2_unarguable_call_witness :
    ((generate_tsc_factor ⟨0, 0, 0, 0, fun _ => 0, fun _ => 0, fun _ => 0⟩
        ["F1 Disclosure-in-negotiations (D)"] "unarguable" true 2).all fun x =>
      decide (x ∈ factors) &&
        decide (x ∉ ["F1 Disclosure-in-negotiations (D)"])) = true ∧
    (generate_tsc_factor ⟨0, 0, 0, 0, fun _ => 0, fun _ => 0, fun _ => 0⟩
      ["F1 Disclosure-in-negotiations (D)"] "unarguable" true 2).Nodup ∧
    (generate_tsc_factor ⟨0, 0, 0, 0, fun _ => 0, fun _ => 0, fun _ => 0⟩
        ["F1 Disclosure-in-negotiations (D)"] "unarguable" true 2).length =
      min (targetDraw 0 2)
        (availableOf ["F1 Disclosure-in-negotiations (D)"]).length :=
  C2_unarguable_call _ _ _ _ _ (by decide)

/-- C7 counterexample: a candidate sequence whose first two sides overlap
the input while the third does not.  The `generate_input_scenario` repair
(lines 190-206) emits the still-overlapping first regeneration without
re-checking it, although a further attempt — well within the claimed
5-attempt bound, and taken by the `update_tsc` loop — would have cleared
the overlap.  So the claim's "regenerated with the intersection
re-checked, up to a fixed retry bound of 5 attempts" does not hold for
every side generated under Unarguable mode. -/
theorem C7_repair_cex :
    ctorRepair
      (fun k => if k ≤ 1 then ["F2 Bribe-employee (P)"] else ["F6 Security-measures (P)"])
      ["F2 Bribe-employee (P)"] = ["F2 Bribe-employee (P)"] ∧
    overlapB ["F2 Bribe-employee (P)"]
      (ctorRepair
        (fun k => if k ≤ 1 then ["F2 Bribe-employee (P)"] else ["F6 Security-measures (P)"])
        ["F2 Bribe-employee (P)"]) = true ∧
    overlapB ["F2 Bribe-employee (P)"]
      ((fun k => if k ≤ 1 then ["F2 Bribe-employee (P)"] else ["F6 Security-measures (P)"])
        2) = false ∧
    updateRepair
      (fun k => if k ≤ 1 then ["F2 Bribe-employee (P)"] else ["F6 Security-measures (P)"])
      ["F2 Bribe-employee (P)"] = ["F6 Security-measures (P)"] := by
  decide

/-- C7 (amended): the `update_tsc` loop regenerates an overlapping side
with re-check up to 5 attempts and then emits whatever is current, and
the `generate_datasets` loop does the same for the whole scenario; the
`generate_input_scenario` path instead regenerates an overlapping side
exactly once, without re-checking.  Every path emits its result (no
exception), and against the actual unarguable generator the overlap
condition is always false, so the repairs never trigger. -/
theorem C7_repair_amended (g : Nat → List String) (input : List String)
    (S : Nat → List String × List String × List String)
    (r : TscRand) (input2 : List String) (mode : String) (b : Bool) (c : Nat)
    (h : mode ≠ "arguable") :
    ctorRepair g input = (if overlapB input (g 0) then g 1 else g 0) ∧
    updateRepair g input =
      (if overlapB input (g 0) = false then g 0
       else if overlapB input (g 1) = false then g 1
       else if overlapB input (g 2) = false then g 2
       else if overlapB input (g 3) = false then g 3
       else if overlapB input (g 4) = false then g 4
       else g 5) ∧
    datasetRepair S =
      (if (overlapB (S 0).1 (S 0).2.1 || overlapB (S 0).1 (S 0).2.2) = false then S 0
       else if (overlapB (S 1).1 (S 1).2.1 || overlapB (S 1).1 (S 1).2.2) = false then S 1
       else if (overlapB (S 2).1 (S 2).2.1 || overlapB (S 2).1 (S 2).2.2) = false then S 2
       else if (overlapB (S 3).1 (S 3).2.1 || overlapB (S 3).1 (S 3).2.2) = false then S 3
       else if (overlapB (S 4).1 (S 4).2.1 || overlapB (S 4).1 (S 4).2.2) = false then S 4
       else S 5) ∧
    overlapB input2 (generate_tsc_factor r input2 mode b c) = false := by
  refine ⟨rfl, ?_, ?_, overlap_generate_tsc_unarg r input2 mode b c h⟩
  · by_cases h0 : overlapB input (g 0)
    · by_cases h1 : overlapB input (g 1)
      · by_cases h2 : overlapB input (g 2)
        · by_cases h3 : overlapB input (g 3)
          · by_cases h4 : overlapB input (g 4)
            · simp [updateRepair, repairLoopGo, h0, h1, h2, h3, h4]
            · simp [updateRepair, repairLoopGo, h0, h1, h2, h3, h4]
          · simp [updateRepair, repairLoopGo, h0, h1, h2, h3]
        · simp [updateRepair, repairLoopGo, h0, h1, h2]
      · simp [updateRepair, repairLoopGo, h0, h1]
    · simp [updateRepair, repairLoopGo, h0]
  · by_cases h0 : (overlapB (S 0).1 (S 0).2.1 || overlapB (S 0).1 (S 0).2.2) = true
    · by_cases h1 : (overlapB (S 1).1 (S 1).2.1 || overlapB (S 1).1 (S 1).2.2) = true
      · by_cases h2 : (overlapB (S 2).1 (S 2).2.1 || overlapB (S 2).1 (S 2).2.2) = true
        · by_cases h3 : (overlapB (S 3).1 (S 3).2.1 || overlapB (S 3).1 (S 3).2.2) = true
          · by_cases h4 : (overlapB (S 4).1 (S 4).2.1 || overlapB (S 4).1 (S 4).2.2) = true
            · simp [datasetRepair, repairLoopGo, h0, h1, h2, h3, h4]
            · simp [datasetRepair, repairLoopGo, h0, h1, h2, h3, h4]
          · simp [datasetRepair, repairLoopGo, h0, h1, h2, h3]
        · simp [datasetRepair, repairLoopGo, h0, h1, h2]
      · simp [datasetRepair, repairLoopGo, h0, h1]
    · simp [datasetRepair, repairLoopGo, h0]

/-- Witness for C7's amended theorem at concrete arguments. -/
theorem C7_repair_amended_witness :
    ctorRepair (fun _ => []) ["F1 Disclosure-in-negotiations (D)"] =
      (if overlapB ["F1 Disclosure-in-negotiations (D)"] ((fun _ => ([] : List String)) 0)
        then (fun _ => ([] : List String)) 1 else (fun _ => ([] : List String)) 0) ∧
    updateRepair (fun _ => []) ["F1 Disclosure-in-negotiations (D)"] =
      (if overlapB ["F1 Disclosure-in-negotiations (D)"] ((fun _ => ([] : List String)) 0) = false
        then (fun _ => ([] : List String)) 0
       else if overlapB ["F1 Disclosure-in-negotiations (D)"] ((fun _ => ([] : List String)) 1) = false
        then (fun _ => ([] : List String)) 1
       else if overlapB ["F1 Disclosure-in-negotiations (D)"] ((fun _ => ([] : List String)) 2) = false
        then (fun _ => ([] : List String)) 2
       else if overlapB ["F1 Disclosure-in-negotiations (D)"] ((fun _ => ([] : List String)) 3) = false
        then (fun _ => ([] : List String)) 3
       else if overlapB ["F1 Disclosure-in-negotiations (D)"] ((fun _ => ([] : List String)) 4) = false
        then (fun _ => ([] : List String)) 4
       else (fun _ => ([] : List String)) 5) ∧
    datasetRepair (fun _ => ([], [], [])) =
      (if (overlapB ((fun _ => (([] : List String), ([] : List String), ([] : List String))) 0).1
            ((fun _ => (([] : List String), ([] : List String), ([] : List String))) 0).2.1 ||
          overlapB ((fun _ => (([] : List String), ([] : List String), ([] : List String))) 0).1
            ((fun _ => (([] : List String), ([] : List String), ([] : List String))) 0).2.2) = false
        then (fun _ => (([] : List String), ([] : List String), ([] : List String))) 0
       else if (overlapB ((fun _ => (([] : List String), ([] : List String), ([] : List String))) 1).1
            ((fun _ => (([] : List String), ([] : List String), ([] : List String))) 1).2.1 ||
          overlapB ((fun _ => (([] : List String), ([] : List String), ([] : List String))) 1).1
            ((fun _ => (([] : List String), ([] : List String), ([] : List String))) 1).2.2) = false
        then (fun _ => (([] : List String), ([] : List String), ([] : List String))) 1
       else if (overlapB ((fun _ => (([] : List String), ([] : List String), ([] : List String))) 2).1
            ((fun _ => (([] : List String), ([] : List String), ([] : List String))) 2).2.1 ||
          overlapB ((fun _ => (([] : List String), ([] : List String), ([] : List String))) 2).1
            ((fun _ => (([] : List String), ([] : List String), ([] : List String))) 2).2.2) = false
        then (fun _ => (([] : List String), ([] : List String), ([] : List String))) 2
       else if (overlapB ((fun _ => (([] : List String), ([] : List String), ([] : List String))) 3).1
            ((fun _ => (([] : List String), ([] : List String), ([] : List String))) 3).2.1 ||
          overlapB ((fun _ => (([] : List String), ([] : List String), ([] : List String))) 3).1
            ((fun _ => (([] : List String), ([] : List String), ([] : List String))) 3).2.2) = false
        then (fun _ => (([] : List String), ([] : List String), ([] : List String))) 3
       else if (overlapB ((fun _ => (([] : List String), ([] : List String), ([] : List String))) 4).1
            ((fun _ => (([] : List String), ([] : List String), ([] : List String))) 4).2.1 ||
          overlapB ((fun _ => (([] : List String), ([] : List String), ([] : List String))) 4).1
            ((fun _ => (([] : List String), ([] : List String), ([] : List String))) 4).2.2) = false
        then (fun _ => (([] : List String), ([] : List String), ([] : List String))) 4
       else (fun _ => (([] : List String), ([] : List String), ([] : List String))) 5) ∧
    overlapB ["F2 Bribe-employee (P)"]
      (generate_tsc_factor ⟨0, 0, 0, 0, fun _ => 0, fun _ => 0, fun _ => 0⟩
        ["F2 Bribe-employee (P)"] "unarguable" true 2) = false :=
  C7_repair_amended (fun _ => []) ["F1 Disclosure-in-negotiations (D)"]
    (fun _ => ([], [], [])) ⟨0, 0, 0, 0, fun _ => 0, fun _ => 0, fun _ => 0⟩
    ["F2 Bribe-employee (P)"] "unarguable" true 2 (by decide)

/-- C9: `generate_tsc_factor` branches only on `mode == "arguable"` — any
other mode string computes the unarguable branch and so returns a side
disjoint from the input — and a mixed-mode generator with
`mode1 = "reordered"`, `mode2 = "arguable"` generates its TSC1 directly
from `mode1` (no swap, since swapping needs both modes `"reordered"`)
with zero overlap with the input, while TSC2 comes from `mode2`. -/
theorem C9_arguable_branch_only (r : TscRand) (input : List String) (mode : String)
    (b : Bool) (R : ScenRand) (c : Nat) (h : mode ≠ "arguable") :
    generate_tsc_factor r input mode b c = generate_tsc_factor r input "unarguable" b c ∧
    ((generate_tsc_factor r input mode b c).filter fun x => decide (x ∈ input)) = [] ∧
    (generate_input_scenario R "reordered" "arguable" c).2.1 =
      generate_tsc_factor R.r1 (generate_input_scenario R "reordered" "arguable" c).1
        "reordered" true c ∧
    ((generate_input_scenario R "reordered" "arguable" c).2.1.filter fun x =>
      decide (x ∈ (generate_input_scenario R "reordered" "arguable" c).1)) = [] ∧
    (generate_input_scenario R "reordered" "arguable" c).2.2 =
      generate_tsc_factor R.r2 (generate_input_scenario R "reordered" "arguable" c).1
        "arguable" false c := by
  have hsc : generate_input_scenario R "reordered" "arguable" c =
      (generate_input_factor R.ri R.rs c,
       generate_tsc_factor R.r1 (generate_input_factor R.ri R.rs c) "reordered" true c,
       generate_tsc_factor R.r2 (generate_input_factor R.ri R.rs c) "arguable" false c) := by
    simp [generate_input_scenario, scenarioPair, repairSide]
  have hdisj : ∀ (r' : TscRand) (input' : List String) (mode' : String) (b' : Bool),
      mode' ≠ "arguable" →
      ((generate_tsc_factor r' input' mode' b' c).filter fun x =>
        decide (x ∈ input')) = [] := by
    intro r' input' mode' b' h'
    rw [List.filter_eq_nil_iff]
    intro x hx hdec
    exact (mem_generate_tsc_unarg r' input' mode' b' c h' x hx).2 (of_decide_eq_true hdec)
  refine ⟨?_, hdisj r input mode b h, ?_, ?_, ?_⟩
  · rw [generate_tsc_factor_unarg r input mode b c h,
      generate_tsc_factor_unarg r input "unarguable" b c (by decide)]
  · rw [hsc]
  · rw [hsc]
    exact hdisj R.r1 _ "reordered" true (by decide)
  · rw [hsc]

/-- Witness for C9 at concrete arguments. -/
theorem C9_arguable_branch_only_witness :
    generate_tsc_factor ⟨0, 0, 0, 0, fun _ => 0, fun _ => 0, fun _ => 0⟩
        ["F1 Disclosure-in-negotiations (D)"] "reordered" true 1 =
      generate_tsc_factor ⟨0, 0, 0, 0, fun _ => 0, fun _ => 0, fun _ => 0⟩
        ["F1 Disclosure-in-negotiations (D)"] "unarguable" true 1 ∧
    ((generate_tsc_factor ⟨0, 0, 0, 0, fun _ => 0, fun _ => 0, fun _ => 0⟩
        ["F1 Disclosure-in-negotiations (D)"] "reordered" true 1).filter fun x =>
      decide (x ∈ ["F1 Disclosure-in-negotiations (D)"])) = [] ∧
    (generate_input_scenario
        ⟨0, fun _ => 0, ⟨0, 0, 0, 0, fun _ => 0, fun _ => 0, fun _ => 0⟩,
         ⟨0, 0, 0, 0, fun _ => 0, fun _ => 0, fun _ => 0⟩,
         ⟨0, 0, 0, 0, fun _ => 0, fun _ => 0, fun _ => 0⟩,
         ⟨0, 0, 0, 0, fun _ => 0, fun _ => 0, fun _ => 0⟩⟩ "reordered" "arguable" 1).2.1 =
      generate_tsc_factor ⟨0, 0, 0, 0, fun _ => 0, fun _ => 0, fun _ => 0⟩
        (generate_input_scenario
          ⟨0, fun _ => 0, ⟨0, 0, 0, 0, fun _ => 0, fun _ => 0, fun _ => 0⟩,
           ⟨0, 0, 0, 0, fun _ => 0, fun _ => 0, fun _ => 0⟩,
           ⟨0, 0, 0, 0, fun _ => 0, fun _ => 0, fun _ => 0⟩,
           ⟨0, 0, 0, 0, fun _ => 0, fun _ => 0, fun _ => 0⟩⟩ "reordered" "arguable" 1).1
        "reordered" true 1 ∧
    ((generate_input_scenario
        ⟨0, fun _ => 0, ⟨0, 0, 0, 0, fun _ => 0, fun _ => 0, fun _ => 0⟩,
         ⟨0, 0, 0, 0, fun _ => 0, fun _ => 0, fun _ => 0⟩,
         ⟨0, 0, 0, 0, fun _ => 0, fun _ => 0, fun _ => 0⟩,
         ⟨0, 0, 0, 0, fun _ => 0, fun _ => 0, fun _ => 0⟩⟩ "reordered" "arguable" 1).2.1.filter
      fun x => decide (x ∈ (generate_input_scenario
        ⟨0, fun _ => 0, ⟨0, 0, 0, 0, fun _ => 0, fun _ => 0, fun _ => 0⟩,
         ⟨0, 0, 0, 0, fun _ => 0, fun _ => 0, fun _ => 0⟩,
         ⟨0, 0, 0, 0, fun _ => 0, fun _ => 0, fun _ => 0⟩,
         ⟨0, 0, 0, 0, fun _ => 0, fun _ => 0, fun _ => 0⟩⟩ "reordered" "arguable" 1).1)) = [] ∧
    (generate_input_scenario
        ⟨0, fun _ => 0, ⟨0, 0, 0, 0, fun _ => 0, fun _ => 0, fun _ => 0⟩,
         ⟨0, 0, 0, 0, fun _ => 0, fun _ => 0, fun _ => 0⟩,
         ⟨0, 0, 0, 0, fun _ => 0, fun _ => 0, fun _ => 0⟩,
         ⟨0, 0, 0, 0, fun _ => 0, fun _ => 0, fun _ => 0⟩⟩ "reordered" "arguable" 1).2.2 =
      generate_tsc_factor ⟨0, 0, 0, 0, fun _ => 0, fun _ => 0, fun _ => 0⟩
        (generate_input_scenario
          ⟨0, fun _ => 0, ⟨0, 0, 0, 0, fun _ => 0, fun _ => 0, fun _ => 0⟩,
           ⟨0, 0, 0, 0, fun _ => 0, fun _ => 0, fun _ => 0⟩,
           ⟨0, 0, 0, 0, fun _ => 0, fun _ => 0, fun _ => 0⟩,
           ⟨0, 0, 0, 0, fun _ => 0, fun _ => 0, fun _ => 0⟩⟩ "reordered" "arguable" 1).1
        "arguable" false 1 :=
  C9_arguable_branch_only ⟨0, 0, 0, 0, fun _ => 0, fun _ => 0, fun _ => 0⟩
    ["F1 Disclosure-in-negotiations (D)"] "reordered" true
    ⟨0, fun _ => 0, ⟨0, 0, 0, 0, fun _ => 0, fun _ => 0, fun _ => 0⟩,
     ⟨0, 0, 0, 0, fun _ => 0, fun _ => 0, fun _ => 0⟩,
     ⟨0, 0, 0, 0, fun _ => 0, fun _ => 0, fun _ => 0⟩,
     ⟨0, 0, 0, 0, fun _ => 0, fun _ => 0, fun _ => 0⟩⟩ 1 (by decide)

theorem basePool_subset (input : List String) (isT1 : Bool) :
    basePool input isT1 ⊆ input := by
  unfold basePool
  split <;> exact fun x hx => (List.mem_filter.mp hx).1

theorem basePool_nodup (input : List String) (isT1 : Bool) (hn : input.Nodup) :
    (basePool input isT1).Nodup := by
  unfold basePool
  split <;> exact hn.filter _

theorem arguableBase_subset (r : TscRand) (input : List String) (isT1 : Bool) :
    ∀ x ∈ arguableBase r input isT1, x ∈ input := by
  intro x hx
  unfold arguableBase at hx
  split at hx
  · simp at hx
  · exact basePool_subset input isT1 (sampleWR_subset _ _ _ _ x hx)

theorem arguableBase_nodup (r : TscRand) (input : List String) (isT1 : Bool)
    (hn : input.Nodup) : (arguableBase r input isT1).Nodup := by
  unfold arguableBase
  split
  · exact List.nodup_nil
  · exact sampleWR_nodup _ _ _ _ (basePool_nodup input isT1 hn)

theorem arguableBase_len_le (r : TscRand) (input : List String) (isT1 : Bool)
    (hn : input.Nodup) :
    (arguableBase r input isT1).length ≤
      (input.filter fun f => decide (f ∈ arguableBase r input isT1)).length := by
  apply List.Subperm.length_le
  apply List.subperm_of_subset (arguableBase_nodup r input isT1 hn)
  intro x hx
  rw [List.mem_filter]
  exact ⟨arguableBase_subset r input isT1 x hx, decide_eq_true hx⟩

theorem arguableSel_len (r : TscRand) (input : List String) (isT1 : Bool)
    (hn : input.Nodup) : (arguableSel r input isT1).length ≤ input.length := by
  have h0 := List.length_eq_length_filter_add (l := input)
    (fun f => decide (f ∈ arguableBase r input isT1))
  have hfun : (fun f => !(decide (f ∈ arguableBase r input isT1))) =
      (fun f => decide (f ∉ arguableBase r input isT1)) := by
    funext f
    rw [decide_not]
  rw [hfun] at h0
  have hb := arguableBase_len_le r input isT1 hn
  unfold arguableSel
  split
  · rw [List.length_append, sampleWR_length]
    unfold selOthers
    omega
  · omega

/-- The fill pool `factors − sel` plus `sel` covers the 26-entry catalog. -/
theorem availFill_ge (sel : List String) :
    26 ≤ (factors.filter fun f => decide (f ∉ sel)).length + sel.length := by
  have h0 := List.length_eq_length_filter_add (l := factors)
    (fun f => decide (f ∉ sel))
  have hlen : factors.length = 26 := by decide
  have hfun : (fun f => !(decide (f ∉ sel))) = (fun f => decide (f ∈ sel)) := by
    funext f
    rw [decide_not, Bool.not_not]
  rw [hfun] at h0
  have hb : (factors.filter fun f => decide (f ∈ sel)).length ≤ sel.length := by
    apply List.Subperm.length_le
    apply List.subperm_of_subset (factors_nodup.filter _)
    intro x hx
    exact of_decide_eq_true (List.mem_filter.mp hx).2
  omega

/-- Size bound for the arguable branch: beyond the seeded shared factors
(at most the whole input set), the fill loop tops the selection up to the
target count, so the final size is within the scenario size window as
long as the input set is. -/
theorem generate_tsc_arguable_len (r : TscRand) (input : List String) (isT1 : Bool)
    (c : Nat) (hn : input.Nodup) (hlen : input.length ≤ c + 1) (hc : c ≤ 25) :
    max 1 (c - 1) ≤ (generate_tsc_factor r input "arguable" isT1 c).length ∧
    (generate_tsc_factor r input "arguable" isT1 c).length ≤ c + 1 := by
  have hres : generate_tsc_factor r input "arguable" isT1 c =
      arguableSel r input isT1 ++
        sampleWR r.s3 0 (factors.filter fun f => decide (f ∉ arguableSel r input isT1))
          (targetDraw r.rt c - (arguableSel r input isT1).length) := by
    rw [generate_tsc_factor, if_pos rfl]
  rw [hres, List.length_append, sampleWR_length]
  have hsel := arguableSel_len r input isT1 hn
  have htb := targetDraw_bounds r.rt c
  have hfill := availFill_ge (arguableSel r input isT1)
  omega

/-- Length of the unarguable branch: the drawn target count capped by the
number of available (non-input) catalog factors. -/
theorem generate_tsc_unarg_len (r : TscRand) (input : List String) (mode : String)
    (b : Bool) (c : Nat) (h : mode ≠ "arguable") :
    (generate_tsc_factor r input mode b c).length =
      min (targetDraw r.rt c) (availableOf input).length := by
  rw [generate_tsc_factor_unarg r input mode b c h, sampleWR_length]
  rcases Nat.lt_or_ge (availableOf input).length (targetDraw r.rt c) with hlt | hge
  · rw [if_pos hlt]
    omega
  · rw [if_neg (by omega)]

/-- A TSC side generated under any mode either lands in the size window
or is the whole available pool (the unarguable shrink case). -/
theorem tsc_side_cases (r : TscRand) (input : List String) (m : String) (b : Bool)
    (c : Nat) (hn : input.Nodup) (hlen : input.length ≤ c + 1) (hc : c ≤ 25) :
    (max 1 (c - 1) ≤ (generate_tsc_factor r input m b c).length ∧
      (generate_tsc_factor r input m b c).length ≤ c + 1) ∨
    (m ≠ "arguable" ∧
      (generate_tsc_factor r input m b c).length = (availableOf input).length) := by
  by_cases hm : m = "arguable"
  · subst hm
    exact Or.inl (generate_tsc_arguable_len r input b c hn hlen hc)
  · have hl := generate_tsc_unarg_len r input m b c hm
    have htb := targetDraw_bounds r.rt c
    rcases Nat.le_total (targetDraw r.rt c) (availableOf input).length with hle | hge
    · left
      rw [hl, Nat.min_eq_left hle]
      omega
    · right
      exact ⟨hm, by rw [hl, Nat.min_eq_right hge]⟩

theorem generate_input_factor_spec (rt : Nat) (rs : Nat → Nat) (c : Nat)
    (hc : c ≤ 25) :
    (generate_input_factor rt rs c).Nodup ∧
    (generate_input_factor rt rs c).length = targetDraw rt c := by
  have hflen : factors.length = 26 := by decide
  have htb := targetDraw_bounds rt c
  refine ⟨sampleWR_nodup _ _ _ _ factors_nodup, ?_⟩
  rw [generate_input_factor, sampleWR_length, hflen]
  omega

theorem scenarioPair_fst_cases (R : ScenRand) (input : List String) (m1 m2 : String)
    (c : Nat) :
    (scenarioPair R input m1 m2 c).1 = generate_tsc_factor R.r2 input "arguable" false c ∨
    (scenarioPair R input m1 m2 c).1 = generate_tsc_factor R.r1 input m1 true c := by
  unfold scenarioPair
  split
  · exact Or.inl rfl
  · exact Or.inr rfl

theorem scenarioPair_snd_cases (R : ScenRand) (input : List String) (m1 m2 : String)
    (c : Nat) :
    (scenarioPair R input m1 m2 c).2 = generate_tsc_factor R.r1 input "arguable" true c ∨
    (scenarioPair R input m1 m2 c).2 = generate_tsc_factor R.r2 input m2 false c := by
  unfold scenarioPair
  split
  · exact Or.inl rfl
  · exact Or.inr rfl

theorem repairSide_cases (q : TscRand) (input : List String) (m : String) (b : Bool)
    (c : Nat) (t : List String) :
    repairSide q input m b c t = t ∨
    repairSide q input m b c t = generate_tsc_factor q input m b c := by
  unfold repairSide
  split
  · exact Or.inr rfl
  · exact Or.inl rfl

/-- C5: in every scenario produced by one pass of the generator with
complexity `c ≤ 25`, the input set size lies in
`[max(1, c-1), c+1]`, and each TSC side size does too unless that side
was produced by the unarguable shrink, in which case it equals the whole
available pool `catalog − inputFactors` (catalog exhaustion); the
arguable branch — including the seeded shared factors — always stays in
the window. -/
theorem C5_size_invariant (R : ScenRand) (m1 m2 : String) (c : Nat) (hc : c ≤ 25) :
    (max 1 (c - 1) ≤ (generate_input_scenario R m1 m2 c).1.length ∧
      (generate_input_scenario R m1 m2 c).1.length ≤ c + 1) ∧
    ((max 1 (c - 1) ≤ (generate_input_scenario R m1 m2 c).2.1.length ∧
        (generate_input_scenario R m1 m2 c).2.1.length ≤ c + 1) ∨
      (m1 ≠ "arguable" ∧ (generate_input_scenario R m1 m2 c).2.1.length =
        (availableOf (generate_input_scenario R m1 m2 c).1).length)) ∧
    ((max 1 (c - 1) ≤ (generate_input_scenario R m1 m2 c).2.2.length ∧
        (generate_input_scenario R m1 m2 c).2.2.length ≤ c + 1) ∨
      (m2 ≠ "arguable" ∧ (generate_input_scenario R m1 m2 c).2.2.length =
        (availableOf (generate_input_scenario R m1 m2 c).1).length)) := by
  have h1 : (generate_input_scenario R m1 m2 c).1 = generate_input_factor R.ri R.rs c := rfl
  have h21 : (generate_input_scenario R m1 m2 c).2.1 =
      repairSide R.q1 (generate_input_factor R.ri R.rs c) m1 true c
        (scenarioPair R (generate_input_factor R.ri R.rs c) m1 m2 c).1 := rfl
  have h22 : (generate_input_scenario R m1 m2 c).2.2 =
      repairSide R.q2 (generate_input_factor R.ri R.rs c) m2 false c
        (scenarioPair R (generate_input_factor R.ri R.rs c) m1 m2 c).2 := rfl
  obtain ⟨hnod, hlen⟩ := generate_input_factor_spec R.ri R.rs c hc
  have htb := targetDraw_bounds R.ri c
  have hub : (generate_input_factor R.ri R.rs c).length ≤ c + 1 := by omega
  refine ⟨?_, ?_, ?_⟩
  · rw [h1]
    omega
  · rw [h1, h21]
    rcases repairSide_cases R.q1 (generate_input_factor R.ri R.rs c) m1 true c
        (scenarioPair R (generate_input_factor R.ri R.rs c) m1 m2 c).1 with hr | hr
    · rw [hr]
      rcases scenarioPair_fst_cases R (generate_input_factor R.ri R.rs c) m1 m2 c
          with hp | hp
      · rw [hp]
        exact Or.inl (generate_tsc_arguable_len R.r2 _ false c hnod hub hc)
      · rw [hp]
        exact tsc_side_cases R.r1 _ m1 true c hnod hub hc
    · rw [hr]
      exact tsc_side_cases R.q1 _ m1 true c hnod hub hc
  · rw [h1, h22]
    rcases repairSide_cases R.q2 (generate_input_factor R.ri R.rs c) m2 false c
        (scenarioPair R (generate_input_factor R.ri R.rs c) m1 m2 c).2 with hr | hr
    · rw [hr]
      rcases scenarioPair_snd_cases R (generate_input_factor R.ri R.rs c) m1 m2 c
          with hp | hp
      · rw [hp]
        exact Or.inl (generate_tsc_arguable_len R.r1 _ true c hnod hub hc)
      · rw [hp]
        exact tsc_side_cases R.r2 _ m2 false c hnod hub hc
    · rw [hr]
      exact tsc_side_cases R.q2 _ m2 false c hnod hub hc

/-- Witness for C5 at a concrete mixed-mode scenario with complexity 5. -/
theorem C5_size_invariant_witness :
    (max 1 (5 - 1) ≤ (generate_input_scenario
        ⟨0, fun _ => 0, ⟨0, 0, 0, 0, fun _ => 0, fun _ => 0, fun _ => 0⟩,
         ⟨0, 0, 0, 0, fun _ => 0, fun _ => 0, fun _ => 0⟩,
         ⟨0, 0, 0, 0, fun _ => 0, fun _ => 0, fun _ => 0⟩,
         ⟨0, 0, 0, 0, fun _ => 0, fun _ => 0, fun _ => 0⟩⟩ "unarguable" "arguable" 5).1.length ∧
      (generate_input_scenario
        ⟨0, fun _ => 0, ⟨0, 0, 0, 0, fun _ => 0, fun _ => 0, fun _ => 0⟩,
         ⟨0, 0, 0, 0, fun _ => 0, fun _ => 0, fun _ => 0⟩,
         ⟨0, 0, 0, 0, fun _ => 0, fun _ => 0, fun _ => 0⟩,
         ⟨0, 0, 0, 0, fun _ => 0, fun _ => 0, fun _ => 0⟩⟩ "unarguable" "arguable" 5).1.length ≤ 5 + 1) ∧
    ((max 1 (5 - 1) ≤ (generate_input_scenario
        ⟨0, fun _ => 0, ⟨0, 0, 0, 0, fun _ => 0, fun _ => 0, fun _ => 0⟩,
         ⟨0, 0, 0, 0, fun _ => 0, fun _ => 0, fun _ => 0⟩,
         ⟨0, 0, 0, 0, fun _ => 0, fun _ => 0, fun _ => 0⟩,
         ⟨0, 0, 0, 0, fun _ => 0, fun _ => 0, fun _ => 0⟩⟩ "unarguable" "arguable" 5).2.1.length ∧
      (generate_input_scenario
        ⟨0, fun _ => 0, ⟨0, 0, 0, 0, fun _ => 0, fun _ => 0, fun _ => 0⟩,
         ⟨0, 0, 0, 0, fun _ => 0, fun _ => 0, fun _ => 0⟩,
         ⟨0, 0, 0, 0, fun _ => 0, fun _ => 0, fun _ => 0⟩,
         ⟨0, 0, 0, 0, fun _ => 0, fun _ => 0, fun _ => 0⟩⟩ "unarguable" "arguable" 5).2.1.length ≤ 5 + 1) ∨
      ("unarguable" ≠ "arguable" ∧ (generate_input_scenario
        ⟨0, fun _ => 0, ⟨0, 0, 0, 0, fun _ => 0, fun _ => 0, fun _ => 0⟩,
         ⟨0, 0, 0, 0, fun _ => 0, fun _ => 0, fun _ => 0⟩,
         ⟨0, 0, 0, 0, fun _ => 0, fun _ => 0, fun _ => 0⟩,
         ⟨0, 0, 0, 0, fun _ => 0, fun _ => 0, fun _ => 0⟩⟩ "unarguable" "arguable" 5).2.1.length =
        (availableOf ((generate_input_scenario
        ⟨0, fun _ => 0, ⟨0, 0, 0, 0, fun _ => 0, fun _ => 0, fun _ => 0⟩,
         ⟨0, 0, 0, 0, fun _ => 0, fun _ => 0, fun _ => 0⟩,
         ⟨0, 0, 0, 0, fun _ => 0, fun _ => 0, fun _ => 0⟩,
         ⟨0, 0, 0, 0, fun _ => 0, fun _ => 0, fun _ => 0⟩⟩ "unarguable" "arguable" 5).1)).length)) ∧
    ((max 1 (5 - 1) ≤ (generate_input_scenario
        ⟨0, fun _ => 0, ⟨0, 0, 0, 0, fun _ => 0, fun _ => 0, fun _ => 0⟩,
         ⟨0, 0, 0, 0, fun _ => 0, fun _ => 0, fun _ => 0⟩,
         ⟨0, 0, 0, 0, fun _ => 0, fun _ => 0, fun _ => 0⟩,
         ⟨0, 0, 0, 0, fun _ => 0, fun _ => 0, fun _ => 0⟩⟩ "unarguable" "arguable" 5).2.2.length ∧
      (generate_input_scenario
        ⟨0, fun _ => 0, ⟨0, 0, 0, 0, fun _ => 0, fun _ => 0, fun _ => 0⟩,
         ⟨0, 0, 0, 0, fun _ => 0, fun _ => 0, fun _ => 0⟩,
         ⟨0, 0, 0, 0, fun _ => 0, fun _ => 0, fun _ => 0⟩,
         ⟨0, 0, 0, 0, fun _ => 0, fun _ => 0, fun _ => 0⟩⟩ "unarguable" "arguable" 5).2.2.length ≤ 5 + 1) ∨
      ("arguable" ≠ "arguable" ∧ (generate_input_scenario
        ⟨0, fun _ => 0, ⟨0, 0, 0, 0, fun _ => 0, fun _ => 0, fun _ => 0⟩,
         ⟨0, 0, 0, 0, fun _ => 0, fun _ => 0, fun _ => 0⟩,
         ⟨0, 0, 0, 0, fun _ => 0, fun _ => 0, fun _ => 0⟩,
         ⟨0, 0, 0, 0, fun _ => 0, fun _ => 0, fun _ => 0⟩⟩ "unarguable" "arguable" 5).2.2.length =
        (availableOf ((generate_input_scenario
        ⟨0, fun _ => 0, ⟨0, 0, 0, 0, fun _ => 0, fun _ => 0, fun _ => 0⟩,
         ⟨0, 0, 0, 0, fun _ => 0, fun _ => 0, fun _ => 0⟩,
         ⟨0, 0, 0, 0, fun _ => 0, fun _ => 0, fun _ => 0⟩,
         ⟨0, 0, 0, 0, fun _ => 0, fun _ => 0, fun _ => 0⟩⟩ "unarguable" "arguable" 5).1)).length)) :=
  C5_size_invariant
    ⟨0, fun _ => 0, ⟨0, 0, 0, 0, fun _ => 0, fun _ => 0, fun _ => 0⟩,
     ⟨0, 0, 0, 0, fun _ => 0, fun _ => 0, fun _ => 0⟩,
     ⟨0, 0, 0, 0, fun _ => 0, fun _ => 0, fun _ => 0⟩,
     ⟨0, 0, 0, 0, fun _ => 0, fun _ => 0, fun _ => 0⟩⟩ "unarguable" "arguable" 5 (by decide)

end MFA

